import Mathlib

/-!
A shallow embedding of the blob-war scheduler core (a Screeps bot written in
Rust) together with proofs about its request/fulfillment protocol, resource
scorer and Build task state machine.

World queries (object lookup, pathfinding, store contents) are represented by
explicit context records; machine integers are modelled as Nat/Int (the counts
involved are far below any overflow boundary, and `f32::round` on the
non-negative quotients appearing here coincides with rounding half away from
zero, embedded as `roundDiv`).  Rust `HashMap` iteration order is represented
by list order where the source iterates a map; `Vec` is a `List`;
`Vec::remove`, which panics when the index is out of bounds, is embedded as an
`Option`-valued removal.
-/

namespace BlobWar

/-- Identity of a world object (`ObjectId<T>` in the source). -/
abbrev ObjId := Nat

/-- A room name (`RoomName`). -/
abbrev RoomName := String

/-- A creep name (`String` in the source). -/
abbrev CreepName := String

/-- Identity of a creep object (`ObjectId<Creep>`). -/
abbrev CreepId := Nat

/-- `state.rs UniqId`: built from `game::time()` and a per-tick counter,
so it is faithfully a pair of the tick and the in-tick sequence number. -/
structure UniqId where
  tick : Nat
  seq : Nat
deriving DecidableEq, Repr

/-- `screeps::ReturnCode`, reduced to the constructors the embedded code
distinguishes. -/
inductive ReturnCode
  | ok
  | notEnough
  | other (code : Nat)
deriving DecidableEq, Repr

/-- `jobs.rs OokCreepJob`. -/
inductive OokCreepJob
  | upgradeController (targetRoom : RoomName)
  | roomLogistics (targetRoom : RoomName)
  | farmSource (targetRoom : RoomName) (targetSource : ObjId)
  | farmExtensionRoom (targetRoom : RoomName)
  | logisticsExtensionRoom (extensionRoom : RoomName) (targetRoom : RoomName)
  | maintainStructures (targetRoom : RoomName)
  | claimRoom (targetRoom : RoomName)
  | bootstrapRoom (targetRoom : RoomName)
deriving DecidableEq, Repr

/-- `room_state.rs TargetSpawnKind`. -/
inductive TargetSpawnKind
  | carrier
  | farmer
  | worker
deriving DecidableEq, Repr

/-- `room_state.rs impl From<&OokCreepJob> for TargetSpawnKind`. -/
def TargetSpawnKind.fromJob : OokCreepJob → TargetSpawnKind
  | .upgradeController _ => .worker
  | .roomLogistics _ => .carrier
  | .farmSource _ _ => .farmer
  | .farmExtensionRoom _ => .farmer
  | .logisticsExtensionRoom _ _ => .carrier
  | .maintainStructures _ => .worker
  | .claimRoom _ => .worker
  | .bootstrapRoom _ => .worker

/-- `requests.rs BootstrapWorkerCitizen`. -/
structure BootstrapWorkerCitizen where
  targetRoomName : RoomName
  spawningCreepName : Option CreepName
deriving DecidableEq, Repr

/-- `requests.rs Citizen`. -/
structure Citizen where
  targetRoomName : RoomName
  spawningCreepName : Option CreepName
  initialJob : OokCreepJob
  resolvePanic : Bool
deriving DecidableEq, Repr

/-- `requests.rs RequestData`. -/
inductive RequestData
  | bootstrapWorkerCitizen (d : BootstrapWorkerCitizen)
  | citizen (d : Citizen)
deriving DecidableEq, Repr

/-- `requests.rs Request`. -/
structure Request where
  requestId : UniqId
  data : RequestData
deriving DecidableEq, Repr

/-- The target room a request asks a citizen for. -/
def Request.targetRoomOf (r : Request) : RoomName :=
  match r.data with
  | .bootstrapWorkerCitizen d => d.targetRoomName
  | .citizen d => d.targetRoomName

/-- Whether the request is a `Citizen` request. -/
def Request.isCitizen (r : Request) : Bool :=
  match r.data with
  | .bootstrapWorkerCitizen _ => false
  | .citizen _ => true

/-- Whether the request is a `Citizen` request with `resolve_panic = true`. -/
def Request.isPanicCitizen (r : Request) : Bool :=
  match r.data with
  | .bootstrapWorkerCitizen _ => false
  | .citizen d => d.resolvePanic

/-- `races.rs OokRace`, reduced to the data the embedded room-state code
reads from it: the constructor and, for workers, the job. -/
inductive OokRace
  | worker (job : OokCreepJob)
  | claimer
  | carrier
deriving DecidableEq, Repr

/-- `room_state.rs TargetSpawns` (u8 counters, modelled as Nat). -/
structure TargetSpawns where
  carrier : Nat
  farmer : Nat
  worker : Nat
deriving DecidableEq, Repr

/-! ## Association-list maps

`HashMap` values that the source both queries and overwrites are embedded as
association lists with replace-or-append insertion, which preserves lookup
semantics of `HashMap::insert`/`get`. -/

/-- `HashMap::insert` on an association list: replace the existing binding or
append a new one. -/
def alInsert {κ ν : Type} [DecidableEq κ] : List (κ × ν) → κ → ν → List (κ × ν)
  | [], k, v => [(k, v)]
  | (k0, v0) :: rest, k, v =>
    if k0 = k then (k, v) :: rest else (k0, v0) :: alInsert rest k v

/-- `HashMap::get` on an association list. -/
def alLookup {κ ν : Type} [DecidableEq κ] : List (κ × ν) → κ → Option ν
  | [], _ => none
  | (k0, v0) :: rest, k => if k0 = k then some v0 else alLookup rest k

theorem alLookup_alInsert_self {κ ν : Type} [DecidableEq κ]
    (m : List (κ × ν)) (k : κ) (v : ν) :
    alLookup (alInsert m k v) k = some v := by
  induction m with
  | nil => simp [alInsert, alLookup]
  | cons hd tl ih =>
    obtain ⟨k0, v0⟩ := hd
    by_cases h : k0 = k <;> simp [alInsert, alLookup, h, ih]

theorem alLookup_alInsert_ne {κ ν : Type} [DecidableEq κ]
    (m : List (κ × ν)) (k k₂ : κ) (v : ν) (h : k ≠ k₂) :
    alLookup (alInsert m k v) k₂ = alLookup m k₂ := by
  induction m with
  | nil => simp [alInsert, alLookup, h]
  | cons hd tl ih =>
    obtain ⟨k0, v0⟩ := hd
    by_cases h0 : k0 = k
    · subst h0
      simp [alInsert, alLookup, h]
    · simp [alInsert, alLookup, h0, ih]

/-! ## Resource providers and the scorer (`creeps.rs`, `resource_provider.rs`) -/

/-- `resource_provider.rs RoomObjectData`. -/
inductive RoomObjectData
  | storageStructure (objId : ObjId)
  | litter (objId : ObjId)
deriving DecidableEq, Repr

/-- `RoomObjectData::obj_id`. -/
def RoomObjectData.objId : RoomObjectData → ObjId
  | .storageStructure i => i
  | .litter i => i

/-- `resource_provider.rs ResourceProvider`.  The payload of each variant is
reduced to the backing object identity; the remaining fields of
`ResourceFarmData`/`StructureData` are the id as well. -/
inductive ResourceProvider
  | energyFarm (objId : ObjId)
  | sourceDump (d : RoomObjectData)
  | bufferControllerUpgrade (objId : ObjId)
  | longTermStorage (objId : ObjId)
  | terminalOverflow (objId : ObjId)
  | unknown (d : RoomObjectData)
deriving DecidableEq, Repr

/-- The backing object identity of a provider (`ResourceProvider::ident`). -/
def ResourceProvider.objIdOf : ResourceProvider → ObjId
  | .energyFarm i => i
  | .sourceDump d => d.objId
  | .bufferControllerUpgrade i => i
  | .longTermStorage i => i
  | .terminalOverflow i => i
  | .unknown d => d.objId

/-- Error type covering `ResourceProviderError::ObjectNotFound` and
`CreepError::ObjectNotFound`, the only errors the embedded paths can hit. -/
inductive ProviderErr
  | objectNotFound (id : ObjId)
deriving DecidableEq, Repr

/-- The world as seen by the scorer: object existence (`get_object_typed`),
stored energy (`store_used_capacity(Some(Energy))`, or `Resource::amount` for
litter; `unwrap_or(0)` for store-less objects is part of this map), and the
length of the path `find_path_to` returns from the object to the requesting
creep.  `TERMINAL_TRADE_BUFFER` lives in `constants.rs`, which is not among
the provided sources; no claim depends on its value, so it is a field. -/
structure ScoreCtx where
  objAlive : ObjId → Bool
  energyOf : ObjId → Nat
  pathLen : ObjId → Nat
  terminalTradeBuffer : Nat

/-- Rounding half away from zero of `a / b` for non-negative operands,
matching `(a as f32 / b as f32).round()` on the magnitudes the code uses. -/
def roundDiv (a b : Nat) : Nat := (a + b / 2) / b

/-- `creeps.rs generic_working_providers_points`.  `Ok(None)` is the
`_ => return Ok(None)` arm for `Unknown` providers; a vanished backing object
produces the `ObjectNotFound` error that `pos()` / `get_object_typed` raise. -/
def generic_working_providers_points (w : ScoreCtx) :
    ResourceProvider → Except ProviderErr (Option Int)
  | .energyFarm oid =>
    if w.objAlive oid then
      .ok (some (100 - (w.pathLen oid : Int)))
    else .error (.objectNotFound oid)
  | .sourceDump d =>
    let oid := d.objId
    if w.objAlive oid then
      let f := w.energyOf oid
      let base : Int :=
        if f = 0 then 0
        else if f < 100 then 200 - (f : Int)
        else if f < 500 then 200 - (roundDiv f 5 : Int)
        else 200 + (roundDiv f 100 : Int)
      .ok (some (base - 3 * (w.pathLen oid : Int)))
    else .error (.objectNotFound oid)
  | .bufferControllerUpgrade oid =>
    if w.objAlive oid then
      let f := w.energyOf oid
      let base : Int :=
        if f = 0 then 0
        else if f < 100 then 200 - (f : Int)
        else if f < 500 then 200 - (50 - (roundDiv f 5 : Int))
        else 200 + (roundDiv f 100 : Int)
      .ok (some (base - 3 * (w.pathLen oid : Int)))
    else .error (.objectNotFound oid)
  | .longTermStorage oid =>
    if w.objAlive oid then
      let f := w.energyOf oid
      let base : Int := if f < 20000 then 1 else 200
      .ok (some (base - 3 * (w.pathLen oid : Int)))
    else .error (.objectNotFound oid)
  | .terminalOverflow oid =>
    if w.objAlive oid then
      let f := w.energyOf oid
      let overflow : Int := (f : Int) - (w.terminalTradeBuffer : Int)
      let base : Int :=
        if overflow < 0 then -100
        else if overflow > 1000 then 150 + max (roundDiv overflow.toNat 10000 : Int) 5
        else 150
      .ok (some (base - 3 * (w.pathLen oid : Int)))
    else .error (.objectNotFound oid)
  | .unknown _ => .ok none

/-- Scoring with the provider-to-requester path length overridden to `d`;
used to compare the same provider at two distances. -/
def pointsAt (w : ScoreCtx) (p : ResourceProvider) (d : Nat) :
    Except ProviderErr (Option Int) :=
  generic_working_providers_points { w with pathLen := fun _ => d } p

/-- A scoring context with every object alive, stored energy `f` everywhere
and zero trade buffer; concrete inputs for the scorer theorems. -/
def sctx (f : Nat) : ScoreCtx :=
  { objAlive := fun _ => true
    energyOf := fun _ => f
    pathLen := fun _ => 0
    terminalTradeBuffer := 0 }

/-- The SourceDump fill term exactly as the spec words it (spec-side
definition, for comparison with the embedded code). -/
def fillTermSpec (f : Nat) : Int :=
  if f = 0 then 0
  else if f < 100 then -(f : Int)
  else if f < 500 then -(roundDiv f 5 : Int)
  else (roundDiv f 100 : Int)

/-- The SourceDump score exactly as the spec words it:
`200 + fill_term(f) - 3 * d`. -/
def sourceDumpScoreSpec (f d : Nat) : Int := 200 + fillTermSpec f - 3 * (d : Int)

/-! ## Provider selection and the Build task
(`creeps.rs`, `races.rs`, `tasks/build.rs`) -/

/-- Stable insertion of `x` into `l`: `x` goes before the first element `y`
with `le x y`. -/
def insertSorted {α : Type} (le : α → α → Bool) (x : α) : List α → List α
  | [] => [x]
  | y :: ys => if le x y then x :: y :: ys else y :: insertSorted le x ys

/-- A stable sort (insertion sort), embedding Rust's stable
`sort_by_cached_key`: for a total preorder comparator both produce the same
list. -/
def stableSortBy {α : Type} (le : α → α → Bool) : List α → List α
  | [] => []
  | x :: xs => insertSorted le x (stableSortBy le xs)

/-- The sort key of `generic_creep_fetch_from_provider_prio`:
`generic_working_providers_points(..).unwrap_or(Some(-10000)).unwrap_or(-10000)`. -/
def provPointsOr (w : ScoreCtx) (p : ResourceProvider) : Int :=
  match generic_working_providers_points w p with
  | .ok (some v) => v
  | .ok none => -10000
  | .error _ => -10000

/-- `creeps.rs generic_creep_fetch_from_provider_prio`: stable-sort the
candidates by descending score (`Reverse` key) and take the first. -/
def generic_creep_fetch_from_provider_prio (w : ScoreCtx)
    (workingProviders : List ResourceProvider) : Option ResourceProvider :=
  (stableSortBy (fun a b => provPointsOr w b ≤ provPointsOr w a)
    workingProviders).head?

/-- The creep data the Build task reads: its room (`creep.room()`), its
energy store and its active body parts. -/
structure Creep where
  roomName : Option RoomName
  usedEnergy : Nat
  freeEnergy : Nat
  workParts : Nat
  carryParts : Nat

/-- `resource_provider.rs creep_can_use`: an `EnergyFarm` needs an active
Work part, every store-backed provider needs an active Carry part.  (The
source returns `Result<bool, _>` but no arm errors.) -/
def creep_can_use (c : Creep) : ResourceProvider → Bool
  | .energyFarm _ => c.workParts > 0
  | _ => c.carryParts > 0

/-- `resource_provider.rs TakeResourceResult`. -/
inductive TakeResourceResult
  | withdraw (returnCode : ReturnCode) (triedAmount : Nat)
  | harvest (returnCode : ReturnCode)
  | pickup (returnCode : ReturnCode)
deriving DecidableEq, Repr

/-- `room_state.rs RoomState`, reduced to the data
`build::Task::calc_resource_provider` reads: the kind and the registered
resource providers (in `HashMap` iteration order). -/
inductive RoomStateLite
  | base (resourceProviders : List ResourceProvider)
  | setupBase (visible : Option (List ResourceProvider))

/-- The world as the Build task sees it: the scorer context plus room
visibility (`rooms::get`), construction-site resolution
(`get_object_typed::<ConstructionSite>`), the adjacency predicate
`creep.pos().is_near_to(provider pos)`, the range-3 predicate against the
build target, and the immediate return codes of the actuation commands. -/
structure TaskCtx where
  score : ScoreCtx
  roomVisible : RoomName → Bool
  roomStates : RoomName → Option RoomStateLite
  siteAlive : ObjId → Bool
  nearTo : ObjId → Bool
  buildInRange3 : Bool
  harvestCode : ReturnCode
  withdrawCode : ReturnCode
  pickupCode : ReturnCode

/-- `resource_provider.rs creep_get_resource`, dispatched over the provider
variants exactly as in the source: a vanished backing object is an
`ObjectNotFound` error; litter is picked up, sources harvested, stores
withdrawn from with `min(store, min(ideal, free))`. -/
def creep_get_resource (ctx : TaskCtx) (c : Creep) (p : ResourceProvider)
    (idealAmount : Nat) : Except ProviderErr TakeResourceResult :=
  match p with
  | .energyFarm oid =>
    if ctx.score.objAlive oid then .ok (.harvest ctx.harvestCode)
    else .error (.objectNotFound oid)
  | .sourceDump (.storageStructure oid) =>
    if ctx.score.objAlive oid then
      .ok (.withdraw ctx.withdrawCode
        (min (ctx.score.energyOf oid) (min idealAmount c.freeEnergy)))
    else .error (.objectNotFound oid)
  | .sourceDump (.litter oid) =>
    if ctx.score.objAlive oid then .ok (.pickup ctx.pickupCode)
    else .error (.objectNotFound oid)
  | .bufferControllerUpgrade oid =>
    if ctx.score.objAlive oid then
      .ok (.withdraw ctx.withdrawCode
        (min (ctx.score.energyOf oid) (min idealAmount c.freeEnergy)))
    else .error (.objectNotFound oid)
  | .longTermStorage oid =>
    if ctx.score.objAlive oid then
      .ok (.withdraw ctx.withdrawCode
        (min (ctx.score.energyOf oid) (min idealAmount c.freeEnergy)))
    else .error (.objectNotFound oid)
  | .terminalOverflow oid =>
    if ctx.score.objAlive oid then
      .ok (.withdraw ctx.withdrawCode
        (min (ctx.score.energyOf oid) (min idealAmount c.freeEnergy)))
    else .error (.objectNotFound oid)
  | .unknown (.storageStructure oid) =>
    if ctx.score.objAlive oid then
      .ok (.withdraw ctx.withdrawCode
        (min (ctx.score.energyOf oid) (min idealAmount c.freeEnergy)))
    else .error (.objectNotFound oid)
  | .unknown (.litter oid) =>
    if ctx.score.objAlive oid then .ok (.pickup ctx.pickupCode)
    else .error (.objectNotFound oid)

/-- `state/build_target.rs BuildTarget`; the position is reduced to its room
name, the only component of `pos` the embedded branches compare. -/
structure BuildTarget where
  posRoom : RoomName
  id : ObjId
deriving DecidableEq, Repr

/-- `tasks/build.rs Step`. -/
inductive BuildStep
  | getEnergy (target : ResourceProvider) (buildTarget : BuildTarget)
      (tookEnergyFor : Nat)
  | build (buildTarget : BuildTarget)
  | waitForResource (buildTarget : BuildTarget)
deriving Repr

/-- `Step::build_target`. -/
def BuildStep.buildTargetOf : BuildStep → BuildTarget
  | .getEnergy _ bt _ => bt
  | .build bt => bt
  | .waitForResource bt => bt

/-- `tasks.rs OokTaskRunnableResult` (`cont` = `Continue`). -/
inductive OokTaskRunnableResult
  | cont
  | finish
  | cancelAndDoAnother
deriving DecidableEq, Repr

/-- The errors Build's `run`/`precheck` can propagate. -/
inductive TaskErr
  | roomNotFound (r : RoomName)
  | roomStateNotFound
  | creepRoomNotFound
  | provider (e : ProviderErr)
deriving DecidableEq, Repr

/-- `tasks/build.rs calc_resource_provider` composed with
`races.rs generic_calc_energy_resource_provider`: in the room of the build
target, filter the registered providers by `creep_can_use` and pick the
highest-scoring one.  (`CalcResourceProviderResult` also carries the
resource type and amount, which the Build task never reads.) -/
def build.calc_resource_provider (ctx : TaskCtx) (c : Creep)
    (step : BuildStep) : Except TaskErr (Option ResourceProvider) :=
  let targetRoomName := step.buildTargetOf.posRoom
  if ctx.roomVisible targetRoomName then
    match ctx.roomStates targetRoomName with
    | some (.base provs) =>
      .ok (generic_creep_fetch_from_provider_prio ctx.score
        (provs.filter (creep_can_use c)))
    | some (.setupBase (some provs)) =>
      .ok (generic_creep_fetch_from_provider_prio ctx.score
        (provs.filter (creep_can_use c)))
    | some (.setupBase none) => .ok none
    | none => .error .roomStateNotFound
  else .error (.roomNotFound targetRoomName)

/-- `tasks/build.rs Task::precheck`. -/
def build.precheck (ctx : TaskCtx) (c : Creep) (step : BuildStep) :
    Except TaskErr BuildStep :=
  match step with
  | .getEnergy _ bt _ =>
    if c.freeEnergy = 0 then .ok (.build bt) else .ok step
  | .build bt =>
    if c.usedEnergy = 0 then
      (build.calc_resource_provider ctx c step).map fun r =>
        match r with
        | some p => .getEnergy p bt 0
        | none => .waitForResource bt
    else .ok step
  | .waitForResource bt =>
    (build.calc_resource_provider ctx c step).map fun r =>
      match r with
      | some p => .getEnergy p bt 0
      | none => step

/-- The step taken by `run` after its initial `self.precheck(..)?`.  The
actuation commands (`move_to`, `build`, `say`) are fire-and-forget; only the
returned result and the mutated step are modelled. -/
def build.runStep (ctx : TaskCtx) (c : Creep) (step : BuildStep) :
    Except TaskErr (OokTaskRunnableResult × BuildStep) :=
  match step with
  | .getEnergy target bt tookEnergyFor =>
    let oid := target.objIdOf
    -- `target.pos()?` resolves the backing object first
    if ctx.score.objAlive oid then
      if ctx.nearTo oid then
        let took := tookEnergyFor + 1
        match creep_get_resource ctx c target c.freeEnergy with
        | .error e => .error (.provider e)
        | .ok (.withdraw _ _) => .ok (.cont, .build bt)
        | .ok (.harvest returnCode) =>
          match returnCode with
          | .ok => .ok (.cont, .getEnergy target bt took)
          | .notEnough => .ok (.cont, .build bt)
          | .other _ => .ok (.cont, .getEnergy target bt took)
        | .ok (.pickup _) => .ok (.cont, .build bt)
      else
        .ok (.cont, step)
    else .error (.provider (.objectNotFound oid))
  | .build bt =>
    if ctx.siteAlive bt.id then
      .ok (.cont, step)
    else
      match c.roomName with
      | none => .error .creepRoomNotFound
      | some creepRoomName =>
        if creepRoomName ≠ bt.posRoom then
          -- we just do not see the room: keep moving
          .ok (.cont, step)
        else
          -- construction site gone
          .ok (.cancelAndDoAnother, step)
  | .waitForResource _ => .ok (.cont, step)

/-- `tasks/build.rs Task::run`: `self.precheck(state, &race)?`, then advance
one step. -/
def build.run (ctx : TaskCtx) (c : Creep) (step0 : BuildStep) :
    Except TaskErr (OokTaskRunnableResult × BuildStep) :=
  match build.precheck ctx c step0 with
  | .error e => .error e
  | .ok step => build.runStep ctx c step

/-! ## The request ledger (`state.rs`) -/

/-- `state.rs RequestHandledOpts`. -/
inductive RequestHandledOpts
  | delayHandleForOneTick
  | noDelay
deriving DecidableEq, Repr

/-- The request ledger slice of `BWState`: the global pending map
`requests : HashMap<UniqId, Request>` and the handled map
`handled_requests : HashMap<u32, HashMap<UniqId, Request>>`, both embedded
as point functions. -/
structure ReqLedger where
  requests : UniqId → Option Request
  handled : Nat → UniqId → Option Request

/-- The empty ledger (`Default::default()`). -/
def ReqLedger.empty : ReqLedger :=
  { requests := fun _ => none, handled := fun _ _ => none }

/-- `BWState::add_request`: both match arms insert the request into the
pending map under its id. -/
def ReqLedger.add_request (s : ReqLedger) (r : Request) : ReqLedger :=
  { s with
    requests := fun i => if i = r.requestId then some r else s.requests i }

/-- `BWState::request_handled` at `game::time() = time`: compute the
resolution tick, and if the id is still pending move the given request data
into the handled map under that tick; otherwise only warn.  The Rust function
always returns `Ok(())`. -/
def ReqLedger.request_handled (s : ReqLedger) (time : Nat) (requestData : Request)
    (opts : RequestHandledOpts) : Except String Unit × ReqLedger :=
  let tickHandled :=
    match opts with
    | .delayHandleForOneTick => time + 1
    | .noDelay => time
  match s.requests requestData.requestId with
  | some _ =>
    (.ok (),
      { requests := fun i =>
          if i = requestData.requestId then none else s.requests i
        handled := fun t i =>
          if t = tickHandled then
            if i = requestData.requestId then some requestData
            else s.handled t i
          else s.handled t i })
  | none => (.ok (), s)

/-- `BWState::get_current_or_old_request`, restricted to what the spawn pass
needs: look the id up in the pending map first, then in any handled tick.
The handled ticks are supplied as the list of ticks to scan (map iteration). -/
def ReqLedger.get_current_or_old_request (s : ReqLedger) (handledTicks : List Nat)
    (requestId : UniqId) : Option Request :=
  match s.requests requestId with
  | some r => some r
  | none => handledTicks.foldl
      (fun acc t => match acc with
        | some r => some r
        | none => s.handled t requestId) none

/-! ## The region read pass (`base.rs`, `setup_base.rs`) -/

/-- The citizen tally of `spawn_citizens_up_to_target`: walk
`helping_citizens`, counting live workers and carriers and striking the
target source of each live farmer off the unhandled-sources set.
Returns (`current_spawns`, remaining `unhandled_sources`). -/
def citizenTally (citizens : CreepId → Option OokRace) (helping : List CreepId)
    (unhandled0 : List ObjId) : TargetSpawns × List ObjId :=
  helping.foldl
    (fun acc cid =>
      match citizens cid with
      | some (.worker (.farmSource _ targetSource)) =>
        (acc.1, acc.2.erase targetSource)
      | some (.worker _) => ({ acc.1 with worker := acc.1.worker + 1 }, acc.2)
      | some .claimer => acc
      | some .carrier => ({ acc.1 with carrier := acc.1.carrier + 1 }, acc.2)
      | none => acc)
    (⟨0, 0, 0⟩, unhandled0)

/-- The open-request tally of `spawn_citizens_up_to_target`: walk the
resolved open requests, counting pending worker/carrier asks for this room
and striking requested farm sources off the unhandled set. -/
def openRequestTally (roomName : RoomName) (openReqs : List Request)
    (unhandled0 : List ObjId) : TargetSpawns × List ObjId :=
  openReqs.foldl
    (fun acc req =>
      match req.data with
      | .bootstrapWorkerCitizen d =>
        if d.targetRoomName = roomName then
          ({ acc.1 with worker := acc.1.worker + 1 }, acc.2)
        else acc
      | .citizen d =>
        match d.initialJob with
        | .farmSource _ targetSource => (acc.1, acc.2.erase targetSource)
        | _ =>
          if d.targetRoomName = roomName then
            match TargetSpawnKind.fromJob d.initialJob with
            | .carrier => ({ acc.1 with carrier := acc.1.carrier + 1 }, acc.2)
            | .farmer => acc
            | .worker => ({ acc.1 with worker := acc.1.worker + 1 }, acc.2)
          else acc)
    (⟨0, 0, 0⟩, unhandled0)

/-- The inputs of `BaseState::spawn_citizens_up_to_target`: the room, its
sources, the persisted helper list, the live-citizen map, the already
resolved open requests of the room (`open_requests` filtered through
`get_current_or_old_request`) and the persisted population targets. -/
structure BaseSpawnInput where
  roomName : RoomName
  sources : List ObjId
  helping : List CreepId
  citizens : CreepId → Option OokRace
  openReqs : List Request
  targets : TargetSpawns

/-- The two tallies of the Base read pass:
(`current_spawns`, `open_request_spawns`, remaining `unhandled_sources`). -/
def baseTallies (inp : BaseSpawnInput) :
    TargetSpawns × TargetSpawns × List ObjId :=
  let c := citizenTally inp.citizens inp.helping inp.sources
  let o := openRequestTally inp.roomName inp.openReqs c.2
  (c.1, o.1, o.2)

/-- `BaseState::spawn_citizens_up_to_target`: emit a worker
(`BootstrapRoom`) request on a worker deficit, a carrier (`RoomLogistics`)
request on a carrier deficit, then one `FarmSource` request per source still
unhandled.  (The set iteration of `unhandled_sources` is represented by the
residual list order.) -/
def BaseState.spawn_citizens_up_to_target (inp : BaseSpawnInput) :
    List RequestData :=
  let t := baseTallies inp
  let currentSpawns := t.1
  let openRequestSpawns := t.2.1
  let unhandledSources := t.2.2
  let requests : List RequestData := []
  let requests :=
    if currentSpawns.worker + openRequestSpawns.worker < inp.targets.worker then
      requests ++ [.citizen
        { targetRoomName := inp.roomName
          spawningCreepName := none
          initialJob := .bootstrapRoom inp.roomName
          resolvePanic := false }]
    else requests
  let requests :=
    if currentSpawns.carrier + openRequestSpawns.carrier < inp.targets.carrier then
      requests ++ [.citizen
        { targetRoomName := inp.roomName
          spawningCreepName := none
          initialJob := .roomLogistics inp.roomName
          resolvePanic := false }]
    else requests
  requests ++ unhandledSources.map (fun src => .citizen
    { targetRoomName := inp.roomName
      spawningCreepName := none
      initialJob := .farmSource inp.roomName src
      resolvePanic := false })

/-- The inputs of `SetupBaseState::spawn_citizens_up_to_target`:
`visibleSources = some srcs` is `SetupBaseStateVisibility::Visible`,
`none` is `NotVisible`; `panicCountdown` is the persisted panic counter. -/
structure SetupSpawnInput where
  roomName : RoomName
  visibleSources : Option (List ObjId)
  helping : List CreepId
  citizens : CreepId → Option OokRace
  openReqs : List Request
  targets : TargetSpawns
  panicCountdown : Option Nat

/-- `PANIC_THRESHOLD_TICKS` (both region files). -/
def PANIC_THRESHOLD_TICKS : Nat := 100

/-- `SetupBaseState::panicing`. -/
def SetupBaseState.panicing (inp : SetupSpawnInput) : Bool :=
  match inp.panicCountdown with
  | some c => c > PANIC_THRESHOLD_TICKS
  | none => false

/-- `SetupBaseState::spawn_panicing_citizens`: if no live or panic-requested
farmer exists, ask for a farmer on the first visible source; if no live or
panic-requested carrier exists, ask for a carrier; both with
`resolve_panic = true`. -/
def SetupBaseState.spawn_panicing_citizens (inp : SetupSpawnInput) :
    List RequestData :=
  let haveFarmer0 := inp.helping.any (fun cid =>
    match inp.citizens cid with
    | some (.worker (.farmSource _ _)) => true
    | _ => false)
  let haveCarrier0 := inp.helping.any (fun cid =>
    match inp.citizens cid with
    | some .carrier => true
    | _ => false)
  let haveFarmer := haveFarmer0 || inp.openReqs.any (fun req =>
    match req.data with
    | .citizen ⟨_, _, .farmSource _ _, true⟩ => true
    | _ => false)
  let haveCarrier := haveCarrier0 || inp.openReqs.any (fun req =>
    match req.data with
    | .citizen d =>
      d.resolvePanic &&
        (match d.initialJob with
          | .farmSource _ _ => false
          | j => decide (d.targetRoomName = inp.roomName) &&
              (match TargetSpawnKind.fromJob j with
                | .carrier => true
                | _ => false))
    | _ => false)
  let farmerReqs : List RequestData :=
    if haveFarmer then []
    else
      match inp.visibleSources with
      | some (src :: _) =>
        [.citizen
          { targetRoomName := inp.roomName
            spawningCreepName := none
            initialJob := .farmSource inp.roomName src
            resolvePanic := true }]
      | _ => []
  let carrierReqs : List RequestData :=
    if haveCarrier then []
    else
      [.citizen
        { targetRoomName := inp.roomName
          spawningCreepName := none
          initialJob := .roomLogistics inp.roomName
          resolvePanic := true }]
  farmerReqs ++ carrierReqs

/-- The tallies of the SetupBase read pass. -/
def setupTallies (inp : SetupSpawnInput) :
    TargetSpawns × TargetSpawns × List ObjId :=
  let unhandled0 := inp.visibleSources.getD []
  let c := citizenTally inp.citizens inp.helping unhandled0
  let o := openRequestTally inp.roomName inp.openReqs c.2
  (c.1, o.1, o.2)

/-- The SetupBase read pass after the panic block and the unhandled-sources
loop of `spawn_citizens_up_to_target`: panic requests first (when panicking),
then one `FarmSource` request per source still unhandled. -/
def setupStage1 (inp : SetupSpawnInput) : List RequestData :=
  (if SetupBaseState.panicing inp then SetupBaseState.spawn_panicing_citizens inp
    else []) ++
  (setupTallies inp).2.2.map (fun src => .citizen
    { targetRoomName := inp.roomName
      spawningCreepName := none
      initialJob := .farmSource inp.roomName src
      resolvePanic := false })

/-- ... after the carrier block: a `RoomLogistics` request only if there is
no unhandled source, nothing was emitted yet and the carrier count is below
target. -/
def setupStage2 (inp : SetupSpawnInput) : List RequestData :=
  let requests := setupStage1 inp
  if (setupTallies inp).2.2.length = 0 ∧ requests.length = 0 then
    if (setupTallies inp).1.carrier + (setupTallies inp).2.1.carrier <
        inp.targets.carrier then
      requests ++ [.citizen
        { targetRoomName := inp.roomName
          spawningCreepName := none
          initialJob := .roomLogistics inp.roomName
          resolvePanic := false }]
    else requests
  else requests

/-- `SetupBaseState::spawn_citizens_up_to_target`: the stages above, then a
worker (`BootstrapRoom`) request only if there is no unhandled source, no
open carrier request, nothing was emitted in this pass and the worker count
is below target. -/
def SetupBaseState.spawn_citizens_up_to_target (inp : SetupSpawnInput) :
    List RequestData :=
  let requests := setupStage2 inp
  if (setupTallies inp).2.2.length = 0 ∧ (setupTallies inp).2.1.carrier = 0 ∧
      requests.length = 0 then
    if (setupTallies inp).1.worker + (setupTallies inp).2.1.worker <
        inp.targets.worker then
      requests ++ [.citizen
        { targetRoomName := inp.roomName
          spawningCreepName := none
          initialJob := .bootstrapRoom inp.roomName
          resolvePanic := false }]
    else requests
  else requests

/-- A worker-role request: a `Citizen` request whose initial job is
`BootstrapRoom` (the job `TargetSpawnKind::Worker` requests are emitted
with). -/
def isWorkerRequest : RequestData → Bool
  | .citizen d =>
    match d.initialJob with
    | .bootstrapRoom _ => true
    | _ => false
  | .bootstrapWorkerCitizen _ => false

/-- `Request::new` for a pass that emits `ds` in order, starting at in-tick
counter `start` at tick `time`: each emitted datum receives the next unique
id. -/
def requestsWithIds (time start : Nat) (ds : List RequestData) : List Request :=
  (List.range ds.length).zip ds |>.map
    (fun p => { requestId := ⟨time, start + p.1⟩, data := p.2 })

/-! ## The driver tick (`main.rs run`) -/

/-- The per-room request collection of `main.rs run`: the read pass results
are inserted one by one into `room_requests : HashMap<RoomName, Request>`
under the room's key, so for a single room each insert overwrites the
previous one and only the last emitted request survives. -/
def roomRequestsCollect (requests : List Request) : Option Request :=
  requests.foldl (fun _ r => some r) none

/-- The apply phase of `main.rs run` for one room: the surviving request is
`add_request`-ed to the pending map and its id `request_logged` (pushed) onto
the room's open list. -/
def applyRoomRequests (s : ReqLedger) (openRequests : List UniqId)
    (requests : List Request) : ReqLedger × List UniqId :=
  match roomRequestsCollect requests with
  | some r => (s.add_request r, openRequests ++ [r.requestId])
  | none => (s, openRequests)

/-! ## The region update pass (`BaseState::update`,
`SetupBaseState::update`) -/

/-- `Vec::remove(i)`: panics (`none`) when `i` is out of bounds. -/
def vecRemove {α : Type} (l : List α) (i : Nat) : Option (List α) :=
  if i < l.length then some (l.eraseIdx i) else none

/-- The scan loop of `update` over `open_requests` against this tick's
handled map: each open id found handled with a `spawning_creep_name` is
recorded (by position) in `closed_requests`, and the named creep — when it
resolves and converts — is pushed onto `helping_citizens`. -/
def updateRequestsScan (openRequests : List UniqId)
    (handledNow : UniqId → Option Request)
    (creepByName : CreepName → Option CreepId) : List Nat × List CreepId :=
  (openRequests.zip (List.range openRequests.length)).foldl
    (fun acc p =>
      match handledNow p.1 with
      | some handledReq =>
        let closeWith : Option CreepName → List Nat × List CreepId :=
          fun spawningCreepName =>
            match spawningCreepName with
            | some name =>
              (acc.1 ++ [p.2],
                acc.2 ++ (match creepByName name with
                  | some cid => [cid]
                  | none => []))
            | none => acc
        match handledReq.data with
        | .bootstrapWorkerCitizen d => closeWith d.spawningCreepName
        | .citizen d => closeWith d.spawningCreepName
      | none => acc)
    ([], [])

/-- The removal loop of `update`: `for i in closed_requests
{ open_requests.remove(i) }` — the indices were collected in ascending scan
order and are applied to the shrinking vector without adjustment. -/
def removeClosedRequests (openRequests : List UniqId) (closed : List Nat) :
    Option (List UniqId) :=
  closed.foldlM vecRemove openRequests

/-- The request section of the region `update` pass: scan, then remove;
returns the surviving open list and the newly recorded helper identities, or
`none` when the removal loop panics. -/
def updateOpenRequests (openRequests : List UniqId)
    (handledNow : UniqId → Option Request)
    (creepByName : CreepName → Option CreepId) :
    Option (List UniqId × List CreepId) :=
  let scan := updateRequestsScan openRequests handledNow creepByName
  (removeClosedRequests openRequests scan.1).map (fun l => (l, scan.2))

/-! ## The assignment pass (`room_state.rs assign_requests`) -/

/-- The room-state kind as `assign_requests` distinguishes it. -/
inductive StateKind
  | base
  | setupBase
deriving DecidableEq, Repr

/-- `room_state.rs get_helping_room_for_request`: for a Bootstrap request
whose target room is invisible, the Base rooms sorted by rounded straight-
line distance (`dist`, a world datum on room names) volunteer; a Citizen
request gets no helper. -/
def get_helping_room_for_request (states : List (RoomName × StateKind))
    (dist : RoomName → RoomName → Int) (req : Request) : Option RoomName :=
  match req.data with
  | .bootstrapWorkerCitizen d =>
    (stableSortBy (fun a b => dist d.targetRoomName a ≤ dist d.targetRoomName b)
      (states.filterMap (fun p =>
        match p.2 with
        | .base => some p.1
        | .setupBase => none))).head?
  | .citizen _ => none

/-- One iteration of `assign_requests`: route the request to a handler room
in the `request_handlers` map.  A visible target inserts unconditionally —
except the Citizen/SetupBase arm, which keeps an existing handler whose data
is a `resolve_panic = true` Citizen request. -/
def assignStep (states : List (RoomName × StateKind))
    (dist : RoomName → RoomName → Int)
    (handlers : List (RoomName × Request)) (req : Request) :
    List (RoomName × Request) :=
  match req.data with
  | .bootstrapWorkerCitizen d =>
    match alLookup states d.targetRoomName with
    | some _ => alInsert handlers d.targetRoomName req
    | none =>
      match get_helping_room_for_request states dist req with
      | some closestRoom => alInsert handlers closestRoom req
      | none => handlers
  | .citizen d =>
    match alLookup states d.targetRoomName with
    | some .base => alInsert handlers d.targetRoomName req
    | some .setupBase =>
      match alLookup handlers d.targetRoomName with
      | some rh =>
        let existingImportant :=
          match rh.data with
          | .citizen c => c.resolvePanic
          | _ => false
        if existingImportant then handlers
        else alInsert handlers d.targetRoomName req
      | none => alInsert handlers d.targetRoomName req
    | none => handlers

/-- `room_state.rs assign_requests`, as a function of one iteration order of
the pending map. -/
def assign_requests (states : List (RoomName × StateKind))
    (dist : RoomName → RoomName → Int) (iter : List Request) :
    List (RoomName × Request) :=
  iter.foldl (assignStep states dist) []

/-! ## Concrete inputs used by the theorems -/

/-- Scenario A: a Base region with one source (id 7), zero living agents and
target populations worker = 1, carrier = 1. -/
def scenAInput : BaseSpawnInput :=
  { roomName := "W1N1"
    sources := [7]
    helping := []
    citizens := fun _ => none
    openReqs := []
    targets := { carrier := 1, farmer := 0, worker := 1 } }

def scenABootstrapData : RequestData :=
  .citizen ⟨"W1N1", none, .bootstrapRoom "W1N1", false⟩

def scenALogisticsData : RequestData :=
  .citizen ⟨"W1N1", none, .roomLogistics "W1N1", false⟩

def scenAFarmData : RequestData :=
  .citizen ⟨"W1N1", none, .farmSource "W1N1" 7, false⟩

def scenAFarmReq : Request := ⟨⟨1, 2⟩, scenAFarmData⟩

/-- The FarmSource request after `dummy_handle_requests` recorded the
spawned creep's name into it. -/
def scenAFarmConfirmed : Request :=
  ⟨⟨1, 2⟩, .citizen ⟨"W1N1", some "newcreep", .farmSource "W1N1" 7, false⟩⟩

/-- The Scenario A read-pass output with the ids `Request::new` assigns at
tick 1. -/
def scenARequests : List Request :=
  requestsWithIds 1 0 (BaseState.spawn_citizens_up_to_target scenAInput)

/-- Scenario A after the tick-1 apply phase: ledger and region open list. -/
def scenATick1 : ReqLedger × List UniqId :=
  applyRoomRequests ReqLedger.empty [] scenARequests

/-- Scenario A ledger after the fulfillment pass confirmed the spawn at
tick 1 with a one-tick delay. -/
def scenATick2Ledger : ReqLedger :=
  (scenATick1.1.request_handled 1 scenAFarmConfirmed .delayHandleForOneTick).2

def scenACreepByName : CreepName → Option CreepId :=
  fun n => if n = "newcreep" then some 42 else none

/-- A confirmed `Citizen` request (spawning creep name recorded) under a
given id. -/
def c2request (id : UniqId) : Request :=
  ⟨id, .citizen ⟨"W1N1", some "spawned", .roomLogistics "W1N1", false⟩⟩

/-- A handled-this-tick map confirming the two requests with ids (0,0) and
(0,1). -/
def c2handled : UniqId → Option Request := fun id =>
  if id = ⟨0, 0⟩ then some (c2request ⟨0, 0⟩)
  else if id = ⟨0, 1⟩ then some (c2request ⟨0, 1⟩)
  else none

def c3states : List (RoomName × StateKind) := [("R", .setupBase)]

def c3baseStates : List (RoomName × StateKind) := [("R", .base)]

def c3dist : RoomName → RoomName → Int := fun _ _ => 0

def c3panic : Request := ⟨⟨0, 0⟩, .citizen ⟨"R", none, .roomLogistics "R", true⟩⟩

def c3nonpanic : Request :=
  ⟨⟨0, 1⟩, .citizen ⟨"R", none, .roomLogistics "R", false⟩⟩

/-- A scoring context in which every object lookup fails. -/
def deadObjectsScore : ScoreCtx :=
  { objAlive := fun _ => false
    energyOf := fun _ => 0
    pathLen := fun _ => 0
    terminalTradeBuffer := 0 }

/-- A task world whose construction sites still resolve but whose provider
objects are all gone. -/
def c4ctx : TaskCtx :=
  { score := deadObjectsScore
    roomVisible := fun _ => true
    roomStates := fun _ => some (.base [])
    siteAlive := fun _ => true
    nearTo := fun _ => true
    buildInRange3 := true
    harvestCode := .ok
    withdrawCode := .ok
    pickupCode := .ok }

def c4creep : Creep :=
  { roomName := some "W1N1"
    usedEnergy := 10
    freeEnergy := 40
    workParts := 1
    carryParts := 1 }

def c4bt : BuildTarget := ⟨"W1N1", 99⟩

/-- A task world whose construction site no longer resolves (and no provider
is registered in the room). -/
def cancelCtx : TaskCtx :=
  { score := deadObjectsScore
    roomVisible := fun _ => true
    roomStates := fun _ => some (.base [])
    siteAlive := fun _ => false
    nearTo := fun _ => true
    buildInRange3 := true
    harvestCode := .ok
    withdrawCode := .ok
    pickupCode := .ok }

/-- A creep carrying a nonzero amount of energy. -/
def loadedCreep : Creep :=
  { roomName := some "W1N1"
    usedEnergy := 10
    freeEnergy := 40
    workParts := 1
    carryParts := 1 }

/-- A creep carrying no energy at all. -/
def c8creep : Creep :=
  { roomName := some "W1N1"
    usedEnergy := 0
    freeEnergy := 50
    workParts := 1
    carryParts := 1 }

/-- A Base region with a worker deficit, a carrier deficit and an unhandled
source at the same time. -/
def c7inp : BaseSpawnInput :=
  { roomName := "W2N2"
    sources := [3]
    helping := []
    citizens := fun _ => none
    openReqs := []
    targets := { carrier := 1, farmer := 0, worker := 1 } }

/-- A SetupBase region whose only deficit is one worker. -/
def c7winp : SetupSpawnInput :=
  { roomName := "W3N3"
    visibleSources := some []
    helping := []
    citizens := fun _ => none
    openReqs := []
    targets := { carrier := 0, farmer := 0, worker := 1 }
    panicCountdown := none }

def c7workerData : RequestData :=
  .citizen ⟨"W3N3", none, .bootstrapRoom "W3N3", false⟩

def c10req : Request := ⟨⟨3, 0⟩, .citizen ⟨"R", none, .roomLogistics "R", false⟩⟩

def c10ledger : ReqLedger := ReqLedger.empty.add_request c10req

/-! ## Helper lemmas -/

theorem spawn_panicing_no_worker (inp : SetupSpawnInput) :
    ∀ r ∈ SetupBaseState.spawn_panicing_citizens inp, isWorkerRequest r = false := by
  intro r hr
  simp only [SetupBaseState.spawn_panicing_citizens] at hr
  rcases List.mem_append.1 hr with h | h
  · split at h
    · simp at h
    · split at h
      · simp at h
        subst h
        rfl
      · simp at h
  · split at h
    · simp at h
    · simp at h
      subst h
      rfl

theorem setupStage1_no_worker (inp : SetupSpawnInput) :
    ∀ r ∈ setupStage1 inp, isWorkerRequest r = false := by
  intro r hr
  simp only [setupStage1] at hr
  rcases List.mem_append.1 hr with h | h
  · split at h
    · exact spawn_panicing_no_worker inp r h
    · simp at h
  · obtain ⟨src, _, rfl⟩ := List.mem_map.1 h
    rfl

theorem setupStage2_no_worker (inp : SetupSpawnInput) :
    ∀ r ∈ setupStage2 inp, isWorkerRequest r = false := by
  intro r hr
  simp only [setupStage2] at hr
  split at hr
  · split at hr
    · rcases List.mem_append.1 hr with h | h
      · exact setupStage1_no_worker inp r h
      · simp at h
        subst h
        rfl
    · exact setupStage1_no_worker inp r hr
  · exact setupStage1_no_worker inp r hr

theorem assignStep_preserves_panic (states : List (RoomName × StateKind))
    (dist : RoomName → RoomName → Int) (R : RoomName)
    (hR : alLookup states R = some .setupBase)
    (handlers : List (RoomName × Request)) (r : Request)
    (hc : r.isCitizen = true)
    (hinv : ∃ h, alLookup handlers R = some h ∧ h.isPanicCitizen = true) :
    ∃ h, alLookup (assignStep states dist handlers r) R = some h ∧
      h.isPanicCitizen = true := by
  obtain ⟨h0, hl0, hp0⟩ := hinv
  obtain ⟨rid, data⟩ := r
  cases data with
  | bootstrapWorkerCitizen d => simp [Request.isCitizen] at hc
  | citizen d =>
    simp only [assignStep]
    by_cases hT : d.targetRoomName = R
    · rw [hT, hR, hl0]
      rcases hd : h0.data with d0 | d0
      · simp [Request.isPanicCitizen, hd] at hp0
      · simp only [Request.isPanicCitizen, hd] at hp0
        simp only [hd, hp0, if_pos]
        exact ⟨h0, hl0, by simp [Request.isPanicCitizen, hd, hp0]⟩
    · rcases hst : alLookup states d.targetRoomName with _ | k
      · simp only [hst]
        exact ⟨h0, hl0, hp0⟩
      · cases k with
        | base =>
          simp only [hst]
          exact ⟨h0, by rw [alLookup_alInsert_ne _ _ _ _ hT]; exact hl0, hp0⟩
        | setupBase =>
          simp only [hst]
          rcases hh : alLookup handlers d.targetRoomName with _ | rh
          · simp only [hh]
            exact ⟨h0, by rw [alLookup_alInsert_ne _ _ _ _ hT]; exact hl0, hp0⟩
          · simp only [hh]
            split
            · exact ⟨h0, hl0, hp0⟩
            · exact ⟨h0, by rw [alLookup_alInsert_ne _ _ _ _ hT]; exact hl0, hp0⟩

theorem assignStep_establishes_panic (states : List (RoomName × StateKind))
    (dist : RoomName → RoomName → Int) (R : RoomName)
    (hR : alLookup states R = some .setupBase)
    (handlers : List (RoomName × Request)) (r : Request)
    (hT : r.targetRoomOf = R) (hp : r.isPanicCitizen = true) :
    ∃ h, alLookup (assignStep states dist handlers r) R = some h ∧
      h.isPanicCitizen = true := by
  obtain ⟨rid, data⟩ := r
  cases data with
  | bootstrapWorkerCitizen d => simp [Request.isPanicCitizen] at hp
  | citizen d =>
    simp only [Request.targetRoomOf] at hT
    simp only [assignStep]
    rw [hT, hR]
    rcases hh : alLookup handlers R with _ | rh
    · simp only [hh]
      exact ⟨⟨rid, .citizen d⟩, alLookup_alInsert_self handlers R _, hp⟩
    · simp only [hh]
      rcases hrh : rh.data with d0 | d0
      · simp only [hrh]
        exact ⟨⟨rid, .citizen d⟩, alLookup_alInsert_self handlers R _, hp⟩
      · simp only [hrh]
        by_cases himp : d0.resolvePanic = true
        · simp only [himp, if_pos]
          exact ⟨rh, hh, by simp [Request.isPanicCitizen, hrh, himp]⟩
        · simp only [himp, if_neg, Bool.false_eq_true, ite_false]
          exact ⟨⟨rid, .citizen d⟩, alLookup_alInsert_self handlers R _, hp⟩

theorem assign_fold_panic (states : List (RoomName × StateKind))
    (dist : RoomName → RoomName → Int) (R : RoomName)
    (hR : alLookup states R = some .setupBase)
    (iter : List Request) (handlers : List (RoomName × Request))
    (hall : ∀ r ∈ iter, r.isCitizen = true)
    (hstart : (∃ r ∈ iter, r.targetRoomOf = R ∧ r.isPanicCitizen = true) ∨
      (∃ h, alLookup handlers R = some h ∧ h.isPanicCitizen = true)) :
    ∃ h, alLookup (iter.foldl (assignStep states dist) handlers) R = some h ∧
      h.isPanicCitizen = true := by
  induction iter generalizing handlers with
  | nil =>
    rcases hstart with h | h
    · simp at h
    · simpa using h
  | cons r rest ih =>
    have hc := hall r (List.mem_cons_self r rest)
    have hall2 : ∀ x ∈ rest, x.isCitizen = true := fun x hx =>
      hall x (List.mem_cons_of_mem r hx)
    rcases hstart with ⟨r0, hr0mem, hr0t, hr0p⟩ | hinv
    · rcases List.mem_cons.1 hr0mem with rfl | hmem
      · exact ih _ hall2 (Or.inr
          (assignStep_establishes_panic states dist R hR handlers r0 hr0t hr0p))
      · exact ih _ hall2 (Or.inl ⟨r0, hmem, hr0t, hr0p⟩)
    · exact ih _ hall2 (Or.inr
        (assignStep_preserves_panic states dist R hR handlers r hc hinv))

/-! ## Claim theorems -/

/-- C1 (counterexample): in Scenario A the first tick's read pass emits
three Citizen Requests, not two — the worker (`BootstrapRoom`) request is
not gated behind the carrier/farmer deficits. -/
theorem C1_scenarioA_counterexample :
    (BaseState.spawn_citizens_up_to_target scenAInput).length = 3 ∧
    (BaseState.spawn_citizens_up_to_target scenAInput).length ≠ 2 := by
  decide

/-- C1 (amended): in Scenario A the tick-1 read pass emits exactly three
Citizen Requests — BootstrapRoom, RoomLogistics and FarmSource on the
region's source, in that order; the driver's per-room collection map keeps
only the last of them, so only the FarmSource Request enters the pending map
and the region's open list; on the tick after its confirmed spawn that
single id leaves the open list and one new helper identity is recorded. -/
theorem C1_scenarioA_amended :
    BaseState.spawn_citizens_up_to_target scenAInput =
      [scenABootstrapData, scenALogisticsData, scenAFarmData] ∧
    scenARequests =
      [⟨⟨1, 0⟩, scenABootstrapData⟩, ⟨⟨1, 1⟩, scenALogisticsData⟩, scenAFarmReq] ∧
    roomRequestsCollect scenARequests = some scenAFarmReq ∧
    scenATick1.2 = [⟨1, 2⟩] ∧
    scenATick1.1.requests ⟨1, 2⟩ = some scenAFarmReq ∧
    scenATick1.1.requests ⟨1, 0⟩ = none ∧
    scenATick1.1.requests ⟨1, 1⟩ = none ∧
    scenATick2Ledger.handled 2 ⟨1, 2⟩ = some scenAFarmConfirmed ∧
    scenATick2Ledger.requests ⟨1, 2⟩ = none ∧
    updateOpenRequests scenATick1.2 (scenATick2Ledger.handled 2) scenACreepByName =
      some ([], [42]) := by
  refine ⟨by decide, by decide, by rfl, by rfl, by rfl, by rfl, by rfl, by rfl,
    by rfl, by rfl⟩

/-- C2 (code bug): with the first two of the open requests `(0,0), (0,1)`
resolved in the same tick, the ascending-index removal loop of `update`
misbehaves: with exactly the two open requests the second `Vec::remove(1)`
indexes out of bounds (a panic, modelled as `none`); with a third open
request `(0,2)` the resolved `(0,1)` stays in the open list while the
unresolved `(0,2)` is silently dropped. -/
theorem C2_closed_requests_removal_bug :
    updateOpenRequests [⟨0, 0⟩, ⟨0, 1⟩] c2handled (fun _ => none) = none ∧
    updateOpenRequests [⟨0, 0⟩, ⟨0, 1⟩, ⟨0, 2⟩] c2handled (fun _ => none) =
      some ([⟨0, 1⟩], []) := by
  constructor <;> rfl

/-- C3 (counterexample): when the target region's state is Base, the
assignment pass overwrites the handler slot unconditionally, so iterating a
`resolve_panic = true` Citizen request before a non-panic one for the same
region selects the non-panic request. -/
theorem C3_panic_preemption_counterexample :
    alLookup (assign_requests c3baseStates c3dist [c3panic, c3nonpanic]) "R" =
      some c3nonpanic ∧
    c3nonpanic.isPanicCitizen = false ∧
    c3panic.isPanicCitizen = true := by
  refine ⟨by rfl, by rfl, by rfl⟩

/-- C3 (amended): when the target region's state is SetupBase and the
pending map holds only Citizen requests, a `resolve_panic = true` request
for that region is never displaced: for every iteration order the chosen
handler has `resolve_panic = true`. -/
theorem C3_panic_preemption_amended (states : List (RoomName × StateKind))
    (dist : RoomName → RoomName → Int) (iter : List Request) (R : RoomName)
    (hR : alLookup states R = some .setupBase)
    (hall : ∀ r ∈ iter, r.isCitizen = true)
    (hpanic : ∃ r ∈ iter, r.targetRoomOf = R ∧ r.isPanicCitizen = true) :
    ∃ h, alLookup (assign_requests states dist iter) R = some h ∧
      h.isPanicCitizen = true :=
  assign_fold_panic states dist R hR iter [] hall (Or.inl hpanic)

/-- Witness for C3: a SetupBase region with the non-panic request iterated
first still ends up handled by the panic request. -/
theorem C3_panic_preemption_witness :
    alLookup c3states "R" = some .setupBase ∧
    (∃ h, alLookup (assign_requests c3states c3dist [c3nonpanic, c3panic]) "R" =
      some h ∧ h.isPanicCitizen = true) :=
  ⟨by rfl, C3_panic_preemption_amended c3states c3dist [c3nonpanic, c3panic] "R"
    (by rfl) (by decide) ⟨c3panic, by decide, by rfl, by rfl⟩⟩

/-- C4 (counterexample): in the GetEnergy step, Build's `run()` returns an
`ObjectNotFound` error — not CancelAndDoAnother or a fallback step — when
the resource-provider's backing object no longer resolves. -/
theorem C4_vanished_object_counterexample :
    build.run c4ctx c4creep (.getEnergy (.longTermStorage 5) c4bt 0) =
      .error (.provider (.objectNotFound 5)) := by rfl

/-- C4 (amended): a vanished construction site is handled as a normal
branch of the Build step (CancelAndDoAnother when the agent is in the
target's region, Continue-and-move when it is elsewhere), but in the
GetEnergy step a vanished resource-provider object makes `run()` return an
`ObjectNotFound` error propagated from `pos()` / `creep_get_resource`. -/
theorem C4_vanished_object_amended :
    (∀ (ctx : TaskCtx) (c : Creep) (bt : BuildTarget),
      c.usedEnergy ≠ 0 → ctx.siteAlive bt.id = false →
      c.roomName = some bt.posRoom →
      build.run ctx c (.build bt) = .ok (.cancelAndDoAnother, .build bt)) ∧
    (∀ (ctx : TaskCtx) (c : Creep) (bt : BuildTarget) (r2 : RoomName),
      c.usedEnergy ≠ 0 → ctx.siteAlive bt.id = false →
      c.roomName = some r2 → r2 ≠ bt.posRoom →
      build.run ctx c (.build bt) = .ok (.cont, .build bt)) ∧
    (∀ (ctx : TaskCtx) (c : Creep) (p : ResourceProvider) (bt : BuildTarget)
        (took : Nat),
      c.freeEnergy ≠ 0 → ctx.score.objAlive p.objIdOf = false →
      build.run ctx c (.getEnergy p bt took) =
        .error (.provider (.objectNotFound p.objIdOf))) := by
  refine ⟨?_, ?_, ?_⟩
  · intro ctx c bt hused hsite hroom
    simp [build.run, build.precheck, build.runStep, hused, hsite, hroom]
  · intro ctx c bt r2 hused hsite hroom hne
    simp [build.run, build.precheck, build.runStep, hused, hsite, hroom, hne]
  · intro ctx c p bt took hfree halive
    simp [build.run, build.precheck, build.runStep, hfree, halive]

/-- Witness for C4: the vanished-site fallback branch at a concrete world. -/
theorem C4_vanished_object_witness :
    loadedCreep.usedEnergy ≠ 0 ∧ cancelCtx.siteAlive c4bt.id = false ∧
    loadedCreep.roomName = some c4bt.posRoom ∧
    build.run cancelCtx loadedCreep (.build c4bt) =
      .ok (.cancelAndDoAnother, .build c4bt) :=
  ⟨by decide, by rfl, by rfl,
    C4_vanished_object_amended.1 cancelCtx loadedCreep c4bt (by decide) (by rfl)
      (by rfl)⟩

/-- C5 (counterexample): at fill 0 and path length 1 the SourceDump score is
-3 (the zero-fill branch resets the whole accumulated score to 0 before the
distance penalty), while the claimed formula `200 + fill_term - 3 * d`
yields 197. -/
theorem C5_sourcedump_score_counterexample :
    pointsAt (sctx 0) (.sourceDump (.storageStructure 0)) 1 = .ok (some (-3)) ∧
    sourceDumpScoreSpec 0 1 = 197 ∧ ((-3 : Int) ≠ 197) :=
  ⟨by rfl, by decide, by decide⟩

/-- C5 (amended): for fill > 0 the SourceDump score is exactly
`200 + fill_term(f) - 3 * d` with the claimed bands; at fill = 0 the branch
overwrites the base with 0, so the score is `-3 * d` instead of
`200 - 3 * d`. -/
theorem C5_sourcedump_score_amended (f d : Nat) :
    pointsAt (sctx f) (.sourceDump (.storageStructure 0)) d =
      .ok (some (if f = 0 then -(3 * (d : Int)) else sourceDumpScoreSpec f d)) := by
  simp only [pointsAt, generic_working_providers_points, sctx, RoomObjectData.objId,
    sourceDumpScoreSpec, fillTermSpec]
  split_ifs <;> simp <;> ring

/-- C6 (counterexample): a LongTermStorage provider below the 20000
low-reserve threshold scores 1 at distance 0 but -2 at distance 1 — the
floored score is applied before the distance penalty, so it is neither fixed
nor independent of the path length. -/
theorem C6_longtermstorage_floor_counterexample :
    pointsAt (sctx 0) (.longTermStorage 0) 0 = .ok (some 1) ∧
    pointsAt (sctx 0) (.longTermStorage 0) 1 = .ok (some (-2)) ∧
    ((-2 : Int) ≠ 1) :=
  ⟨by rfl, by rfl, by decide⟩

/-- C6 (amended): below the 20000 threshold the base score is reset to the
fixed floor 1 before the distance penalty, giving `1 - 3 * d` (still
distance-penalized); at or above the threshold the score is `200 - 3 * d`. -/
theorem C6_longtermstorage_floor_amended (f d : Nat) :
    (f < 20000 →
      pointsAt (sctx f) (.longTermStorage 0) d = .ok (some (1 - 3 * (d : Int)))) ∧
    (20000 ≤ f →
      pointsAt (sctx f) (.longTermStorage 0) d =
        .ok (some (200 - 3 * (d : Int)))) := by
  constructor <;> intro h <;>
    simp [pointsAt, generic_working_providers_points, sctx, h, Nat.not_lt.mpr h]

/-- Witness for C6: the below-threshold branch at fill 0 and distance 1. -/
theorem C6_longtermstorage_floor_witness :
    (0 : Nat) < 20000 ∧
    pointsAt (sctx 0) (.longTermStorage 0) 1 =
      .ok (some (1 - 3 * ((1 : Nat) : Int))) :=
  ⟨by decide, (C6_longtermstorage_floor_amended 0 1).1 (by decide)⟩

/-- C7 (counterexample): a Base read pass with positive carrier deficit and
an unhandled source still emits the worker (`BootstrapRoom`) request — the
worker gating does not exist in the Base pass. -/
theorem C7_worker_gating_counterexample :
    RequestData.citizen ⟨"W2N2", none, .bootstrapRoom "W2N2", false⟩ ∈
      BaseState.spawn_citizens_up_to_target c7inp ∧
    (baseTallies c7inp).1.carrier + (baseTallies c7inp).2.1.carrier <
      c7inp.targets.carrier ∧
    (baseTallies c7inp).2.2 = [3] := by
  decide

/-- C7 (amended): the worker gating holds for the SetupBase read pass — a
worker (`BootstrapRoom`) request is emitted only when it is the pass's sole
request, every source is covered and no carrier request is open — while the
Base read pass emits a worker request whenever the worker count plus open
worker requests is below target, regardless of carrier/farmer deficits. -/
theorem C7_worker_gating_amended :
    (∀ inp : SetupSpawnInput,
      ∀ r ∈ SetupBaseState.spawn_citizens_up_to_target inp,
        isWorkerRequest r = true →
          SetupBaseState.spawn_citizens_up_to_target inp = [r] ∧
          (setupTallies inp).2.2 = [] ∧
          (setupTallies inp).2.1.carrier = 0) ∧
    (∀ inp : BaseSpawnInput,
      (baseTallies inp).1.worker + (baseTallies inp).2.1.worker <
          inp.targets.worker →
        (RequestData.citizen
          ⟨inp.roomName, none, .bootstrapRoom inp.roomName, false⟩) ∈
          BaseState.spawn_citizens_up_to_target inp) := by
  constructor
  · intro inp r hr hw
    rcases hcond : decide ((setupTallies inp).2.2.length = 0 ∧
        (setupTallies inp).2.1.carrier = 0 ∧ (setupStage2 inp).length = 0) with _ | _
    · have hcond2 : ¬ ((setupTallies inp).2.2.length = 0 ∧
          (setupTallies inp).2.1.carrier = 0 ∧ (setupStage2 inp).length = 0) :=
        of_decide_eq_false hcond
      rw [SetupBaseState.spawn_citizens_up_to_target, if_neg hcond2] at hr
      exact absurd (setupStage2_no_worker inp r hr) (by simp [hw])
    · have hcond2 := of_decide_eq_true hcond
      obtain ⟨hunh, hcar, hlen⟩ := hcond2
      have hempty : setupStage2 inp = [] := List.length_eq_zero.mp hlen
      rcases hdef : decide ((setupTallies inp).1.worker +
          (setupTallies inp).2.1.worker < inp.targets.worker) with _ | _
      · rw [SetupBaseState.spawn_citizens_up_to_target,
          if_pos ⟨hunh, hcar, hlen⟩, if_neg (of_decide_eq_false hdef)] at hr
        exact absurd (setupStage2_no_worker inp r hr) (by simp [hw])
      · rw [SetupBaseState.spawn_citizens_up_to_target,
          if_pos ⟨hunh, hcar, hlen⟩, if_pos (of_decide_eq_true hdef), hempty] at hr
        simp at hr
        subst hr
        refine ⟨?_, List.length_eq_zero.mp hunh, hcar⟩
        rw [SetupBaseState.spawn_citizens_up_to_target,
          if_pos ⟨hunh, hcar, hlen⟩, if_pos (of_decide_eq_true hdef), hempty]
        simp
  · intro inp h
    simp only [BaseState.spawn_citizens_up_to_target]
    rw [if_pos h]
    split <;> simp

/-- Witness for C7: a SetupBase region whose only deficit is one worker
does emit the worker request, alone. -/
theorem C7_worker_gating_witness :
    c7workerData ∈ SetupBaseState.spawn_citizens_up_to_target c7winp ∧
    isWorkerRequest c7workerData = true ∧
    SetupBaseState.spawn_citizens_up_to_target c7winp = [c7workerData] :=
  ⟨by decide, by rfl,
    (C7_worker_gating_amended.1 c7winp c7workerData (by decide) (by rfl)).1⟩

/-- C8 (counterexample): a Build task whose site no longer resolves in a
visible region returns Continue — not CancelAndDoAnother — when the agent
carries zero energy, because `precheck` first swaps the Build step for
WaitForResource (or GetEnergy). -/
theorem C8_build_cancel_counterexample :
    build.run cancelCtx c8creep (.build c4bt) =
      .ok (.cont, .waitForResource c4bt) ∧
    (OokTaskRunnableResult.cont ≠ .cancelAndDoAnother) :=
  ⟨by rfl, by decide⟩

/-- C8 (amended): whenever the agent carries a nonzero amount of energy, a
Build task whose construction-site id no longer resolves while the agent's
room equals the target's room returns CancelAndDoAnother. -/
theorem C8_build_cancel_amended (ctx : TaskCtx) (c : Creep) (bt : BuildTarget)
    (hused : c.usedEnergy ≠ 0) (hsite : ctx.siteAlive bt.id = false)
    (hroom : c.roomName = some bt.posRoom) :
    build.run ctx c (.build bt) = .ok (.cancelAndDoAnother, .build bt) := by
  simp [build.run, build.precheck, build.runStep, hused, hsite, hroom]

/-- Witness for C8: the cancel branch at a concrete world. -/
theorem C8_build_cancel_witness :
    loadedCreep.usedEnergy ≠ 0 ∧ cancelCtx.siteAlive c4bt.id = false ∧
    loadedCreep.roomName = some c4bt.posRoom ∧
    build.run cancelCtx loadedCreep (.build c4bt) =
      .ok (.cancelAndDoAnother, .build c4bt) :=
  ⟨by decide, by rfl, by rfl,
    C8_build_cancel_amended cancelCtx loadedCreep c4bt (by decide) (by rfl)
      (by rfl)⟩

/-- C9: for every provider variant and fixed stored-energy level, the
computed score strictly decreases as the path length to the requester
grows. -/
theorem C9_score_distance_monotone (w : ScoreCtx) (p : ResourceProvider)
    (d₁ d₂ : Nat) (v₁ v₂ : Int) (hd : d₁ < d₂)
    (h1 : pointsAt w p d₁ = .ok (some v₁))
    (h2 : pointsAt w p d₂ = .ok (some v₂)) : v₂ < v₁ := by
  have hd2 : (d₁ : Int) < (d₂ : Int) := by exact_mod_cast hd
  cases p <;>
    simp only [pointsAt, generic_working_providers_points,
      ResourceProvider.objIdOf] at h1 h2 <;>
    first
      | (split_ifs at h1 h2 <;> simp_all <;> omega)
      | simp_all

/-- Witness for C9: an EnergyFarm one step further away scores 99 < 100. -/
theorem C9_score_distance_monotone_witness :
    (0 : Nat) < 1 ∧
    pointsAt (sctx 3) (.energyFarm 0) 0 = .ok (some 100) ∧
    pointsAt (sctx 3) (.energyFarm 0) 1 = .ok (some 99) ∧
    (99 : Int) < 100 :=
  ⟨by decide, by rfl, by rfl,
    C9_score_distance_monotone (sctx 3) (.energyFarm 0) 0 1 100 99 (by decide)
      (by rfl) (by rfl)⟩

/-- C10: `request_handled` always succeeds; a pending id is moved from the
pending map into the handled map keyed by the resolution tick (the current
tick, or the next under DelayHandleForOneTick) without touching other
entries, and an id that is not pending leaves the whole ledger unchanged. -/
theorem C10_request_handled_spec (s : ReqLedger) (time : Nat) (rd : Request)
    (opts : RequestHandledOpts) :
    (s.request_handled time rd opts).1 = .ok () ∧
    ((s.requests rd.requestId).isSome →
      (s.request_handled time rd opts).2.requests rd.requestId = none ∧
      (s.request_handled time rd opts).2.handled
        (match opts with
          | .delayHandleForOneTick => time + 1
          | .noDelay => time) rd.requestId = some rd ∧
      (∀ i, i ≠ rd.requestId →
        (s.request_handled time rd opts).2.requests i = s.requests i) ∧
      (∀ t i, i ≠ rd.requestId →
        (s.request_handled time rd opts).2.handled t i = s.handled t i)) ∧
    ((s.requests rd.requestId).isNone →
      (s.request_handled time rd opts).2 = s) := by
  cases hs : s.requests rd.requestId with
  | none =>
    cases opts <;> simp [ReqLedger.request_handled, hs]
  | some r0 =>
    cases opts <;>
      refine ⟨by simp [ReqLedger.request_handled, hs], fun _ => ⟨?_, ?_, ?_, ?_⟩,
        by simp [hs]⟩
    · simp [ReqLedger.request_handled, hs]
    · simp [ReqLedger.request_handled, hs]
    · intro i hi
      simp [ReqLedger.request_handled, hs, hi]
    · intro t i hi
      simp [ReqLedger.request_handled, hs, hi]
    · simp [ReqLedger.request_handled, hs]
    · simp [ReqLedger.request_handled, hs]
    · intro i hi
      simp [ReqLedger.request_handled, hs, hi]
    · intro t i hi
      simp [ReqLedger.request_handled, hs, hi]

/-- Witness for C10: a concrete pending request moved to the handled map at
tick 6 under the one-tick delay. -/
theorem C10_request_handled_witness :
    (c10ledger.requests c10req.requestId).isSome ∧
    (c10ledger.request_handled 5 c10req .delayHandleForOneTick).2.requests
      c10req.requestId = none ∧
    (c10ledger.request_handled 5 c10req .delayHandleForOneTick).2.handled 6
      c10req.requestId = some c10req :=
  ⟨by rfl,
    ((C10_request_handled_spec c10ledger 5 c10req .delayHandleForOneTick).2.1
      (by rfl)).1,
    ((C10_request_handled_spec c10ledger 5 c10req .delayHandleForOneTick).2.1
      (by rfl)).2.1⟩

end BlobWar
